import Mathlib

/-!
Verification of the pysomeip SOME/IP Service Discovery core.

This file shallowly embeds the data model and the algorithms of the
repository (src/someip/header, src/someip/protocol, src/someip/sd) as
executable Lean definitions and proves properties of them.  Bytes are
modelled as natural numbers below 256 inside plain lists; fallible code
returns Except; the asyncio event loop is modelled as an explicit queue
of deferred events.
-/

namespace PySomeip

/-- Errors raised by the codec, mirroring util.ParseError and
util.IncompleteReadError (a subclass of ParseError in the source). -/
inductive ParseErr where
  | incompleteRead : ParseErr
  | parseError : ParseErr
deriving DecidableEq, Repr

/-- someip.header.enums.SOMEIPMessageType -/
inductive SOMEIPMessageType where
  | REQUEST | REQUEST_NO_RETURN | NOTIFICATION
  | REQUEST_ACK | REQUEST_NO_RETURN_ACK | NOTIFICATION_ACK
  | RESPONSE | ERROR | RESPONSE_ACK | ERROR_ACK
deriving DecidableEq, Repr

namespace SOMEIPMessageType

/-- enum member values of SOMEIPMessageType. -/
def val : SOMEIPMessageType → Nat
  | REQUEST => 0
  | REQUEST_NO_RETURN => 1
  | NOTIFICATION => 2
  | REQUEST_ACK => 0x40
  | REQUEST_NO_RETURN_ACK => 0x41
  | NOTIFICATION_ACK => 0x42
  | RESPONSE => 0x80
  | ERROR => 0x81
  | RESPONSE_ACK => 0xC0
  | ERROR_ACK => 0xC1

/-- enum lookup, i.e. the SOMEIPMessageType(mt_b) constructor call;
returns none where Python raises ValueError. -/
def fromVal : Nat → Option SOMEIPMessageType
  | 0 => some REQUEST
  | 1 => some REQUEST_NO_RETURN
  | 2 => some NOTIFICATION
  | 0x40 => some REQUEST_ACK
  | 0x41 => some REQUEST_NO_RETURN_ACK
  | 0x42 => some NOTIFICATION_ACK
  | 0x80 => some RESPONSE
  | 0x81 => some ERROR
  | 0xC0 => some RESPONSE_ACK
  | 0xC1 => some ERROR_ACK
  | _ => none

end SOMEIPMessageType

/-- someip.header.enums.SOMEIPReturnCode -/
inductive SOMEIPReturnCode where
  | E_OK | E_NOT_OK | E_UNKNOWN_SERVICE | E_UNKNOWN_METHOD | E_NOT_READY
  | E_NOT_REACHABLE | E_TIMEOUT | E_WRONG_PROTOCOL_VERSION
  | E_WRONG_INTERFACE_VERSION | E_MALFORMED_MESSAGE | E_WRONG_MESSAGE_TYPE
deriving DecidableEq, Repr

namespace SOMEIPReturnCode

/-- enum member values of SOMEIPReturnCode. -/
def val : SOMEIPReturnCode → Nat
  | E_OK => 0
  | E_NOT_OK => 1
  | E_UNKNOWN_SERVICE => 2
  | E_UNKNOWN_METHOD => 3
  | E_NOT_READY => 4
  | E_NOT_REACHABLE => 5
  | E_TIMEOUT => 6
  | E_WRONG_PROTOCOL_VERSION => 7
  | E_WRONG_INTERFACE_VERSION => 8
  | E_MALFORMED_MESSAGE => 9
  | E_WRONG_MESSAGE_TYPE => 10

/-- enum lookup, i.e. the SOMEIPReturnCode(rc_b) constructor call. -/
def fromVal : Nat → Option SOMEIPReturnCode
  | 0 => some E_OK
  | 1 => some E_NOT_OK
  | 2 => some E_UNKNOWN_SERVICE
  | 3 => some E_UNKNOWN_METHOD
  | 4 => some E_NOT_READY
  | 5 => some E_NOT_REACHABLE
  | 6 => some E_TIMEOUT
  | 7 => some E_WRONG_PROTOCOL_VERSION
  | 8 => some E_WRONG_INTERFACE_VERSION
  | 9 => some E_MALFORMED_MESSAGE
  | 10 => some E_WRONG_MESSAGE_TYPE
  | _ => none

end SOMEIPReturnCode

/-- big-endian 16-bit read, as struct.unpack of format H does on two bytes. -/
def rd16 (b0 b1 : Nat) : Nat := b0 * 256 + b1

/-- big-endian 32-bit read, as struct.unpack of format I does on four bytes. -/
def rd32 (b0 b1 b2 b3 : Nat) : Nat := ((b0 * 256 + b1) * 256 + b2) * 256 + b3

/-- big-endian 16-bit write, as struct.pack of format H (value checked to be
in range by the caller, mirroring struct.error). -/
def u16Bytes (n : Nat) : List Nat := [n / 256, n % 256]

/-- big-endian 32-bit write, as struct.pack of format I. -/
def u32Bytes (n : Nat) : List Nat :=
  [n / 16777216, n / 65536 % 256, n / 256 % 256, n % 256]

/-- someip.header.someip_header.SOMEIPHeader: the top-level SOME/IP packet
(header fields and payload).  The payload is the raw byte list. -/
structure SOMEIPHeader where
  service_id : Nat
  method_id : Nat
  client_id : Nat
  session_id : Nat
  interface_version : Nat
  message_type : SOMEIPMessageType
  protocol_version : Nat := 1
  return_code : SOMEIPReturnCode := .E_OK
  payload : List Nat := []
deriving DecidableEq, Repr

namespace SOMEIPHeader

/-- SOMEIPHeader.build: packs the header with struct format HHIHHBBBB
followed by the payload.  The length field is len(payload) + 8.
Returns an error where struct.pack raises struct.error, i.e. when a
field is out of range for its width. -/
def build (h : SOMEIPHeader) : Except Unit (List Nat) :=
  let size := h.payload.length + 8
  if h.service_id < 65536 ∧ h.method_id < 65536 ∧ size < 4294967296 ∧
      h.client_id < 65536 ∧ h.session_id < 65536 ∧
      h.protocol_version < 256 ∧ h.interface_version < 256 then
    .ok (u16Bytes h.service_id ++ u16Bytes h.method_id ++ u32Bytes size ++
      u16Bytes h.client_id ++ u16Bytes h.session_id ++
      [h.protocol_version, h.interface_version,
        h.message_type.val, h.return_code.val] ++ h.payload)
  else .error ()

/-- SOMEIPHeader.parse: unpacks struct format HHIHHBBBB, validates
protocol version, message type, return code and size, then splits off
the payload; returns the parsed header and the unparsed rest. -/
def parse (buf : List Nat) : Except ParseErr (SOMEIPHeader × List Nat) :=
  match buf with
  | b0 :: b1 :: b2 :: b3 :: b4 :: b5 :: b6 :: b7 :: b8 :: b9 :: b10 :: b11 ::
      b12 :: b13 :: b14 :: b15 :: rest =>
    let size := rd32 b4 b5 b6 b7
    if b12 ≠ 1 then .error .parseError
    else
      match SOMEIPMessageType.fromVal b14 with
      | none => .error .parseError
      | some mt =>
        match SOMEIPReturnCode.fromVal b15 with
        | none => .error .parseError
        | some rc =>
          if size < 8 then .error .parseError
          else if rest.length < size - 8 then .error .incompleteRead
          else
            .ok ({ service_id := rd16 b0 b1, method_id := rd16 b2 b3,
                   client_id := rd16 b8 b9, session_id := rd16 b10 b11,
                   protocol_version := b12, interface_version := b13,
                   message_type := mt, return_code := rc,
                   payload := rest.take (size - 8) },
                 rest.drop (size - 8))
  | _ => .error .incompleteRead

end SOMEIPHeader

/-- someip.header.enums.SOMEIPSDEntryType -/
inductive SOMEIPSDEntryType where
  | FindService | OfferService | Subscribe | SubscribeAck
deriving DecidableEq, Repr

namespace SOMEIPSDEntryType

/-- enum member values of SOMEIPSDEntryType. -/
def val : SOMEIPSDEntryType → Nat
  | FindService => 0
  | OfferService => 1
  | Subscribe => 6
  | SubscribeAck => 7

/-- enum lookup, i.e. the SOMEIPSDEntryType(sd_type_b) constructor call. -/
def fromVal : Nat → Option SOMEIPSDEntryType
  | 0 => some FindService
  | 1 => some OfferService
  | 6 => some Subscribe
  | 7 => some SubscribeAck
  | _ => none

end SOMEIPSDEntryType

/-- someip.header.someip_sd_entry.SOMEIPSDEntry.  The type of SD options is
a parameter: entries only compare options for equality, never inspect
them.  Option runs are either resolved (options_1 and options_2 lists,
index fields None) or unresolved (index fields set). -/
structure SOMEIPSDEntry (α : Type) where
  sd_type : SOMEIPSDEntryType
  service_id : Nat
  instance_id : Nat
  major_version : Nat
  ttl : Nat
  minver_or_counter : Nat
  options_1 : List α := []
  options_2 : List α := []
  option_index_1 : Option Nat := none
  option_index_2 : Option Nat := none
  num_options_1 : Option Nat := none
  num_options_2 : Option Nat := none
deriving DecidableEq, Repr

namespace SOMEIPSDEntry

/-- SOMEIPSDEntry.options_resolved, exactly as in the source: a
disjunction over the four index fields being None. -/
def options_resolved (e : SOMEIPSDEntry α) : Bool :=
  e.option_index_1.isNone || e.option_index_2.isNone ||
    e.num_options_1.isNone || e.num_options_2.isNone

/-- eventgroup_id, for Subscribe and SubscribeAck entries:
minver_or_counter masked to its lower 16 bits. -/
def eventgroup_id (e : SOMEIPSDEntry α) : Nat :=
  e.minver_or_counter &&& 0xFFFF

/-- eventgroup_counter, for Subscribe and SubscribeAck entries. -/
def eventgroup_counter (e : SOMEIPSDEntry α) : Nat :=
  (e.minver_or_counter >>> 16) &&& 0x0F

end SOMEIPSDEntry

section Find

variable {α : Type} [DecidableEq α]

/-- The skip table of util._find: a dict built from the first n-1 needle
elements, needle element x maps to n - i - 1 for the last position i < n-1
holding x, defaulting to n. -/
def bmhSkip (needle : List α) (x : α) : Nat :=
  (List.range (needle.length - 1)).foldl
    (fun acc i => if needle.get? i = some x then needle.length - i - 1 else acc)
    needle.length

/-- The inner for-loop of util._find: the first j < n with
haystack[i - j] != needle[n - 1 - j], or none when the window matches. -/
def mismatchIdx (haystack needle : List α) (i : Nat) : Option Nat :=
  (List.range needle.length).find?
    (fun j => decide (haystack.get? (i - j) ≠ needle.get? (needle.length - 1 - j)))

/-- The while-loop of util._find.  The fuel argument only bounds the
iteration count; bmhLoop_fuel_irrel below shows any sufficient fuel
gives the same result, so the entry point with fuel = length + 1 is the
unbounded loop. -/
def bmhLoop (haystack needle : List α) : Nat → Nat → Option Nat
  | 0, _ => none
  | fuel + 1, i =>
    if h : i < haystack.length then
      match mismatchIdx haystack needle i with
      | none => some (i + 1 - needle.length)
      | some _ =>
          bmhLoop haystack needle fuel (i + bmhSkip needle (haystack.get ⟨i, h⟩))
    else none

/-- util._find: Boyer-Moore-Horspool search for needle in haystack,
returning the index of the first occurrence or none.  An empty needle
returns 0 immediately, as the loop in the source does on its first
iteration. -/
def _find (haystack needle : List α) : Option Nat :=
  if needle.length = 0 then some 0
  else bmhLoop haystack needle (haystack.length + 1) (needle.length - 1)

/-- The window at position k of the haystack equals the needle. -/
def matchesAt (haystack needle : List α) (k : Nat) : Prop :=
  k + needle.length ≤ haystack.length ∧
    ∀ j < needle.length, haystack.get? (k + j) = needle.get? j

instance (haystack needle : List α) (k : Nat) :
    Decidable (matchesAt haystack needle k) := by
  unfold matchesAt; infer_instance

end Find

section Assign

variable {α : Type} [DecidableEq α]

/-- SOMEIPSDEntry._assign_option: an empty run yields (0, 0); otherwise
search the header option list for the run, appending it when absent.
The mutated header option list is threaded explicitly. -/
def _assign_option (entry_options hdr_options : List α) :
    Nat × Nat × List α :=
  if entry_options.isEmpty then (0, 0, hdr_options)
  else
    match _find hdr_options entry_options with
    | some oi => (oi, entry_options.length, hdr_options)
    | none =>
        (hdr_options.length, entry_options.length,
          hdr_options ++ entry_options)

/-- SOMEIPSDEntry.assign_option_index: assigns indexes for both runs,
threading the (in the source, mutated in place) option list; entries
whose options_resolved is false are returned unchanged. -/
def assign_option_index (e : SOMEIPSDEntry α) (options : List α) :
    SOMEIPSDEntry α × List α :=
  if ¬ e.options_resolved then (e, options)
  else
    ({ e with
        option_index_1 := some (_assign_option e.options_1 options).1,
        option_index_2 := some (_assign_option e.options_2
          (_assign_option e.options_1 options).2.2).1,
        num_options_1 := some (_assign_option e.options_1 options).2.1,
        num_options_2 := some (_assign_option e.options_2
          (_assign_option e.options_1 options).2.2).2.1,
        options_1 := [], options_2 := [] },
      (_assign_option e.options_2 (_assign_option e.options_1 options).2.2).2.2)

/-- The entry loop of SOMEIPSDHeader.assign_option_indexes: each entry is
assigned against the option list left by its predecessors. -/
def assign_entries : List (SOMEIPSDEntry α) → List α →
    List (SOMEIPSDEntry α) × List α
  | [], options => ([], options)
  | e :: rest, options =>
    ((assign_option_index e options).1 ::
        (assign_entries rest (assign_option_index e options).2).1,
      (assign_entries rest (assign_option_index e options).2).2)

/-- someip.header.someip_sd_header.SOMEIPSDHeader. -/
structure SOMEIPSDHeader (α : Type) where
  entries : List (SOMEIPSDEntry α)
  options : List α := []
  flag_reboot : Bool := false
  flag_unicast : Bool := true
  flags_unknown : Nat := 0
deriving DecidableEq, Repr

/-- SOMEIPSDHeader.assign_option_indexes: assigns option indexes to all
entries, building the options list starting from the options of the header. -/
def SOMEIPSDHeader.assign_option_indexes (hdr : SOMEIPSDHeader α) :
    SOMEIPSDHeader α :=
  let r := assign_entries hdr.entries hdr.options
  { hdr with entries := r.1, options := r.2 }

/-- After assignment, the new entry references both of the original
option runs of the original entry as contiguous slices of the option list. -/
def entrySlicesOk (orig new : SOMEIPSDEntry α) (opts : List α) : Prop :=
  ∃ k1 k2,
    new.option_index_1 = some k1 ∧
    new.num_options_1 = some orig.options_1.length ∧
    matchesAt opts orig.options_1 k1 ∧
    new.option_index_2 = some k2 ∧
    new.num_options_2 = some orig.options_2.length ∧
    matchesAt opts orig.options_2 k2

end Assign

/-- Header used to settle the option-index assignment claims: two
entries with resolved runs [1] and [2, 1] over option type Nat. -/
def C3hdr : SOMEIPSDHeader Nat :=
  { entries :=
      [{ sd_type := .OfferService, service_id := 1, instance_id := 1,
         major_version := 1, ttl := 3, minver_or_counter := 0,
         options_1 := [1] },
       { sd_type := .OfferService, service_id := 2, instance_id := 1,
         major_version := 1, ttl := 3, minver_or_counter := 0,
         options_1 := [2, 1] }],
    options := [] }

/-- Header used to refute C4: two identical entries with runs [1] and
[1, 1]; the second run of the second entry is found at index 0 inside
the list grown by the append done for the first entry. -/
def C4hdr : SOMEIPSDHeader Nat :=
  { entries :=
      [{ sd_type := .OfferService, service_id := 1, instance_id := 1,
         major_version := 1, ttl := 3, minver_or_counter := 0,
         options_1 := [1], options_2 := [1, 1] },
       { sd_type := .OfferService, service_id := 1, instance_id := 1,
         major_version := 1, ttl := 3, minver_or_counter := 0,
         options_1 := [1], options_2 := [1, 1] }],
    options := [] }

/-- The first entry of C4hdr after assignment, as a literal. -/
def C4assignedA : SOMEIPSDEntry Nat :=
  { sd_type := .OfferService, service_id := 1, instance_id := 1,
    major_version := 1, ttl := 3, minver_or_counter := 0,
    option_index_1 := some 0, option_index_2 := some 1,
    num_options_1 := some 1, num_options_2 := some 2 }

/-- The second entry of C4hdr after assignment, as a literal. -/
def C4assignedB : SOMEIPSDEntry Nat :=
  { sd_type := .OfferService, service_id := 1, instance_id := 1,
    major_version := 1, ttl := 3, minver_or_counter := 0,
    option_index_1 := some 0, option_index_2 := some 0,
    num_options_1 := some 1, num_options_2 := some 2 }

section Session

variable {K : Type} [DecidableEq K]

/-- someip.protocol.session_storage._SessionStorage.check_received.  The
incoming map is a function from (sender, multicast) keys to the stored
(reboot flag, session id) pair; the call returns the reboot verdict and
the updated map (the finally block in the source stores the new pair on every
path). -/
def check_received (incoming : K × Bool → Option (Bool × Nat)) (sender : K)
    (multicast flag : Bool) (session_id : Nat) :
    Bool × (K × Bool → Option (Bool × Nat)) :=
  match incoming (sender, multicast) with
  | some (old_flag, old_session_id) =>
    (flag && (!old_flag ||
        (decide (0 < old_session_id) && decide (session_id ≤ old_session_id))),
      Function.update incoming (sender, multicast) (some (flag, session_id)))
  | none =>
    (false, Function.update incoming (sender, multicast) (some (flag, session_id)))

end Session

namespace SOMEIPSDEntry

/-- SOMEIPSDEntry.parse: unpacks struct format BBBBHHBBHI, validates the
entry type, both option runs against the containing header option
count, and the upper 12 bits of minver_or_counter for Subscribe and
SubscribeAck; returns the parsed entry (with index fields set and empty
option lists) plus the unparsed rest. -/
def parse {α : Type} (buf : List Nat) (num_options : Nat) :
    Except ParseErr (SOMEIPSDEntry α × List Nat) :=
  match buf with
  | b0 :: b1 :: b2 :: b3 :: b4 :: b5 :: b6 :: b7 :: b8 :: b9 :: b10 :: b11 ::
      b12 :: b13 :: b14 :: b15 :: rest =>
    match SOMEIPSDEntryType.fromVal b0 with
    | none => .error .parseError
    | some sd_type =>
      if num_options < b1 + b3 / 16 then .error .parseError
      else if num_options < b2 + b3 % 16 then .error .parseError
      else if (sd_type = .Subscribe ∨ sd_type = .SubscribeAck) ∧
          rd32 b12 b13 b14 b15 &&& 0xFFF00000 ≠ 0 then .error .parseError
      else
        .ok ({ sd_type := sd_type, service_id := rd16 b4 b5,
               instance_id := rd16 b6 b7, major_version := b8,
               ttl := (b9 <<< 16) ||| rd16 b10 b11,
               minver_or_counter := rd32 b12 b13 b14 b15,
               option_index_1 := some b1, option_index_2 := some b2,
               num_options_1 := some (b3 / 16),
               num_options_2 := some (b3 % 16) }, rest)
  | _ => .error .incompleteRead

end SOMEIPSDEntry

/-- timing.TTL_FOREVER -/
def TTL_FOREVER : Nat := 0xFFFFFF

/-- someip.sd.event_group_sub.EventgroupSubscription.  Endpoint options
(type ε) live in a frozenset, the remaining options (type ω) in an
ordered tuple; ttl and options carry compare=False in the source and so
are excluded from the identity key below. -/
structure EventgroupSubscription (ε ω : Type) where
  service_id : Nat
  instance_id : Nat
  major_version : Nat
  id : Nat
  counter : Nat
  ttl : Nat
  endpoints : Finset ε
  options : List ω
deriving DecidableEq

/-- The tuple of fields the frozen dataclass compares and hashes:
everything except the compare=False fields ttl and options. -/
def subKey {ε ω : Type} (s : EventgroupSubscription ε ω) :
    Nat × Nat × Nat × Nat × Nat × Finset ε :=
  (s.service_id, s.instance_id, s.major_version, s.id, s.counter, s.endpoints)

/-- The dataclass-generated equality of EventgroupSubscription: equality
of the compare=True field tuple. -/
def subEq {ε ω : Type} [DecidableEq ε] (a b : EventgroupSubscription ε ω) :
    Bool :=
  decide (subKey a = subKey b)

/-- EventgroupSubscription.from_subscribe_entry: splits the merged entry
merged options into endpoint options (a frozenset) and other options (a
tuple), and copies identity, counter, eventgroup id, and ttl. -/
def from_subscribe_entry {α : Type} [DecidableEq α] (isEndpoint : α → Bool)
    (e : SOMEIPSDEntry α) : EventgroupSubscription α α :=
  { service_id := e.service_id, instance_id := e.instance_id,
    major_version := e.major_version,
    id := e.eventgroup_id, counter := e.eventgroup_counter,
    ttl := e.ttl,
    endpoints := ((e.options_1 ++ e.options_2).filter isEndpoint).toFinset,
    options := (e.options_1 ++ e.options_2).filter (fun o => ¬ isEndpoint o) }

/-- EventgroupSubscription.to_ack_entry. -/
def to_ack_entry {ε ω α : Type} (s : EventgroupSubscription ε ω) :
    SOMEIPSDEntry α :=
  { sd_type := .SubscribeAck, service_id := s.service_id,
    instance_id := s.instance_id, major_version := s.major_version,
    ttl := s.ttl, minver_or_counter := (s.counter <<< 16) ||| s.id }

/-- EventgroupSubscription.to_nack_entry: the ack entry with ttl 0. -/
def to_nack_entry {ε ω α : Type} (s : EventgroupSubscription ε ω) :
    SOMEIPSDEntry α :=
  to_ack_entry { s with ttl := 0 }

section TimedStoreModel

variable {π κ : Type} [DecidableEq π]

/-- Result of a successful TimedStore.refresh: the updated store, whether
the callback_new ran, and the old timeout handle that was cancelled (if
an entry was popped). -/
structure RefreshResult (π κ : Type) where
  store : π → List (κ × Option Nat)
  called_new : Bool
  cancelled : Option Nat

/-- someip.sd.timed_store.TimedStore.refresh.  The store maps an address
to its bucket, an insertion-ordered association list keyed by the
dict equality kEq; the bucket value is the timeout handle of the entry (the
stored expire callback plays no role in the refresh path).  A present
entry is popped and its timeout cancelled; otherwise callback_new runs
(an exception propagates, leaving the store untouched).  Then a new
timeout handle (new_timer, or none when ttl is TTL_FOREVER) is stored
under the entry. -/
def TimedStore.refresh (kEq : κ → κ → Bool)
    (store : π → List (κ × Option Nat)) (ttl : Nat) (address : π)
    (entry : κ) (callback_new : Except Unit Unit) (new_timer : Nat) :
    Except Unit (RefreshResult π κ) :=
  match (store address).find? (fun p => kEq p.1 entry) with
  | some old =>
    .ok { store := Function.update store address
            (((store address).eraseP (fun p => kEq p.1 entry)) ++
              [(entry, if ttl = TTL_FOREVER then none else some new_timer)]),
          called_new := false, cancelled := old.2 }
  | none =>
    match callback_new with
    | .error e => .error e
    | .ok _ =>
      .ok { store := Function.update store address
              ((store address) ++
                [(entry, if ttl = TTL_FOREVER then none else some new_timer)]),
            called_new := true, cancelled := none }

/-- someip.sd.timed_store.TimedStore.stop on a single entry: pop it (and
synchronously run its expire callback, not modelled as data). -/
def TimedStore.stop (kEq : κ → κ → Bool)
    (store : π → List (κ × Option Nat)) (address : π) (entry : κ) :
    π → List (κ × Option Nat) :=
  Function.update store address
    ((store address).eraseP (fun p => kEq p.1 entry))

end TimedStoreModel

/-- someip.sd.service_instance.ServiceInstance.handle_subscribe.  Inputs
abstract the environment: task_active models self._task being set,
matches models service.matches_subscribe(entry), client_subscribed is
the listener callback outcome (error = NakSubscription raised), and
new_timer the handle returned by call_later.  Returns the bool result,
the updated subscriptions store, and the list of queued outgoing
(entry, remote) sends. -/
def handle_subscribe {π α : Type} [DecidableEq π] [DecidableEq α]
    (isEndpoint : α → Bool) (task_active matches_subscribe : Bool)
    (store : π → List (EventgroupSubscription α α × Option Nat))
    (entry : SOMEIPSDEntry α) (addr : π)
    (client_subscribed : Except Unit Unit) (new_timer : Nat) :
    Bool × (π → List (EventgroupSubscription α α × Option Nat)) ×
      List (SOMEIPSDEntry α × π) :=
  if ¬ task_active then (false, store, [])
  else if ¬ matches_subscribe then (false, store, [])
  else
    if entry.ttl = 0 then
      (true, TimedStore.stop subEq store addr
        (from_subscribe_entry isEndpoint entry), [])
    else
      match TimedStore.refresh subEq store
          (from_subscribe_entry isEndpoint entry).ttl addr
          (from_subscribe_entry isEndpoint entry) client_subscribed
          new_timer with
      | .error _ =>
        (true, store,
          [(to_nack_entry (from_subscribe_entry isEndpoint entry), addr)])
      | .ok r =>
        (true, r.store,
          [(to_ack_entry (from_subscribe_entry isEndpoint entry), addr)])

/-- The repetition loop of ServiceDiscover.send_find_services, as the
list of cumulative send times.  Each iteration i sleeps 2 ^ i times the
REPETITIONS_BASE_DELAY, rebuilds the find-entry list (knownAt t is true
when the single watched service is known at cumulative time t, making
the rebuilt list empty) and returns without sending when it is empty.
The fuel is REPETITIONS_MAX minus the iterations already run, so the
recursion mirrors the for-loop exactly. -/
def findLoopTimes (base : ℚ) (knownAt : ℚ → Bool) :
    Nat → Nat → ℚ → List ℚ
  | 0, _, _ => []
  | fuel + 1, i, t =>
    if knownAt (t + 2 ^ i * base) then []
    else (t + 2 ^ i * base) ::
      findLoopTimes base knownAt fuel (i + 1) (t + 2 ^ i * base)

/-- Cumulative send times of ServiceDiscover.send_find_services with
INITIAL_DELAY_MIN = INITIAL_DELAY_MAX = 0 and a single watched service:
a send at time 0 unless the service is already known, then the
repetition loop. -/
def send_find_times (repetitions_max : Nat) (base : ℚ)
    (knownAt : ℚ → Bool) : List ℚ :=
  if knownAt 0 then [] else 0 :: findLoopTimes base knownAt repetitions_max 0 0

/-- Observable events induced by ServiceDiscoveryProtocol.message_received
on the single-threaded event loop. -/
inductive SDEvent (α : Type) where
  | reboot_subscriber : SDEvent α
  | reboot_discovery : SDEvent α
  | reboot_announcer : SDEvent α
  | offer_dispatch (entry : SOMEIPSDEntry α) : SDEvent α
  | findservice_dispatch (entry : SOMEIPSDEntry α) : SDEvent α
  | subscribe_dispatch (entry : SOMEIPSDEntry α) : SDEvent α
  | subscribe_ack_logged (entry : SOMEIPSDEntry α) : SDEvent α
deriving DecidableEq, Repr

/-- Entry dispatch to a handler (handle_offer, handle_findservice or
handle_subscribe). -/
def isDispatchEvent {α : Type} : SDEvent α → Bool
  | .offer_dispatch _ => true
  | .findservice_dispatch _ => true
  | .subscribe_dispatch _ => true
  | _ => false

/-- A reboot_detected notification to one of the three sub-engines. -/
def isRebootEvent {α : Type} : SDEvent α → Bool
  | .reboot_subscriber => true
  | .reboot_discovery => true
  | .reboot_announcer => true
  | _ => false

/-- A deferred handle_offer dispatch. -/
def isOfferDispatch {α : Type} : SDEvent α → Bool
  | .offer_dispatch _ => true
  | _ => false

/-- The entry loop of sd_message_received: per entry, OfferService
dispatch is deferred to the event loop with call_soon (second
component), while FindService and Subscribe are invoked synchronously
(first component) and SubscribeAck entries are only logged; Subscribe
entries received over multicast are discarded. -/
def sd_dispatch {α : Type} :
    List (SOMEIPSDEntry α) → Bool → List (SDEvent α) × List (SDEvent α)
  | [], _ => ([], [])
  | e :: rest, multicast =>
    match e.sd_type with
    | .OfferService =>
      ((sd_dispatch rest multicast).1,
        .offer_dispatch e :: (sd_dispatch rest multicast).2)
    | .SubscribeAck =>
      (.subscribe_ack_logged e :: (sd_dispatch rest multicast).1,
        (sd_dispatch rest multicast).2)
    | .FindService =>
      (.findservice_dispatch e :: (sd_dispatch rest multicast).1,
        (sd_dispatch rest multicast).2)
    | .Subscribe =>
      if multicast then sd_dispatch rest multicast
      else
        (.subscribe_dispatch e :: (sd_dispatch rest multicast).1,
          (sd_dispatch rest multicast).2)

/-- The full observable event order induced by message_received on a
parsed SD datagram: message_received runs to completion synchronously
(emitting the synchronous dispatches), then the event loop drains the
call_soon queue in enqueue order: first the three reboot_detected
notifications (enqueued before sd_message_received ran, when a reboot
was detected), then the deferred handle_offer dispatches. -/
def message_received_events {α : Type} (reboot_detected flag_unicast : Bool)
    (entries : List (SOMEIPSDEntry α)) (multicast : Bool) :
    List (SDEvent α) :=
  (if flag_unicast then sd_dispatch entries multicast else ([], [])).1 ++
    ((if reboot_detected then
        [.reboot_subscriber, .reboot_discovery, .reboot_announcer]
      else []) ++
     (if flag_unicast then sd_dispatch entries multicast else ([], [])).2)

theorem messageType_fromVal_val (mt : SOMEIPMessageType) :
    SOMEIPMessageType.fromVal (SOMEIPMessageType.val mt) = some mt := by
  cases mt <;> rfl

theorem returnCode_fromVal_val (rc : SOMEIPReturnCode) :
    SOMEIPReturnCode.fromVal (SOMEIPReturnCode.val rc) = some rc := by
  cases rc <;> rfl

theorem rd16_u16 (n : Nat) : rd16 (n / 256) (n % 256) = n := by
  unfold rd16; omega

theorem rd32_u32 (n : Nat) (hn : n < 4294967296) :
    rd32 (n / 16777216) (n / 65536 % 256) (n / 256 % 256) (n % 256) = n := by
  unfold rd32; omega

/-- C1: for every well-formed SOMEIPHeader h (protocol_version 1, valid
message_type and return_code members by typing, integer fields within
their declared widths), building succeeds and parsing the built bytes
returns exactly (h, empty rest), with the built length field (bytes 4-7,
big-endian) equal to len(payload) + 8. -/
theorem C1_someip_header_parse_build (h : SOMEIPHeader)
    (hsid : h.service_id < 65536) (hmid : h.method_id < 65536)
    (hcid : h.client_id < 65536) (hsess : h.session_id < 65536)
    (hpv : h.protocol_version = 1) (hiv : h.interface_version < 256)
    (hlen : h.payload.length + 8 < 4294967296) :
    ∃ buf, SOMEIPHeader.build h = .ok buf ∧
      SOMEIPHeader.parse buf = .ok (h, []) ∧
      rd32 (buf.getD 4 0) (buf.getD 5 0) (buf.getD 6 0) (buf.getD 7 0) =
        h.payload.length + 8 := by
  have hcond : h.service_id < 65536 ∧ h.method_id < 65536 ∧
      h.payload.length + 8 < 4294967296 ∧ h.client_id < 65536 ∧
      h.session_id < 65536 ∧ h.protocol_version < 256 ∧
      h.interface_version < 256 := by
    refine ⟨hsid, hmid, hlen, hcid, hsess, ?_, hiv⟩
    omega
  refine ⟨u16Bytes h.service_id ++ u16Bytes h.method_id ++
      u32Bytes (h.payload.length + 8) ++ u16Bytes h.client_id ++
      u16Bytes h.session_id ++
      [h.protocol_version, h.interface_version,
        h.message_type.val, h.return_code.val] ++ h.payload, ?_, ?_, ?_⟩
  · simp only [SOMEIPHeader.build]
    rw [if_pos hcond]
  · simp only [u16Bytes, u32Bytes, List.cons_append, List.nil_append,
      SOMEIPHeader.parse, hpv]
    rw [rd32_u32 _ hlen]
    simp only [messageType_fromVal_val, returnCode_fromVal_val]
    rw [if_neg (by omega), if_neg (by omega), if_neg (by omega)]
    simp only [Nat.add_sub_cancel, List.take_length, List.drop_length]
    congr 1
    refine congrArg₂ _ ?_ rfl
    have e1 := rd16_u16 h.service_id
    have e2 := rd16_u16 h.method_id
    have e3 := rd16_u16 h.client_id
    have e4 := rd16_u16 h.session_id
    cases h
    simp_all
  · simp only [u16Bytes, u32Bytes, List.cons_append, List.nil_append,
      List.getD, List.get?, Option.getD_some]
    rw [rd32_u32 _ hlen]

/-- Witness for C1 at a concrete header. -/
theorem C1_someip_header_parse_build_witness :
    ∃ buf,
      SOMEIPHeader.build
        { service_id := 0x1234, method_id := 0x8100, client_id := 0,
          session_id := 7, interface_version := 1,
          message_type := .NOTIFICATION, protocol_version := 1,
          return_code := .E_OK, payload := [1, 2, 3] } = .ok buf ∧
      SOMEIPHeader.parse buf = .ok
        ({ service_id := 0x1234, method_id := 0x8100, client_id := 0,
           session_id := 7, interface_version := 1,
           message_type := .NOTIFICATION, protocol_version := 1,
           return_code := .E_OK, payload := [1, 2, 3] }, []) ∧
      rd32 (buf.getD 4 0) (buf.getD 5 0) (buf.getD 6 0) (buf.getD 7 0) =
        11 := by
  exact C1_someip_header_parse_build _ (by decide) (by decide) (by decide)
    (by decide) (by decide) (by decide) (by decide)

theorem sdEntryType_fromVal_val (t : SOMEIPSDEntryType) :
    SOMEIPSDEntryType.fromVal (SOMEIPSDEntryType.val t) = some t := by
  cases t <;> rfl

/-- C2: the source computes options_resolved as a disjunction, so an
entry carrying some but not all of the four index fields still reports
options_resolved = true, although the claim requires false whenever at
least one of the four fields is set.  This evaluates the source
version of options_resolved at such a mixed entry. -/
theorem C2_options_resolved_mixed_entry :
    SOMEIPSDEntry.options_resolved (α := Unit)
        { sd_type := .OfferService, service_id := 1, instance_id := 1,
          major_version := 1, ttl := 3, minver_or_counter := 0,
          option_index_1 := some 0, option_index_2 := none,
          num_options_1 := none, num_options_2 := none } = true ∧
    ({ sd_type := .OfferService, service_id := 1, instance_id := 1,
       major_version := 1, ttl := 3, minver_or_counter := 0,
       option_index_1 := some 0, option_index_2 := none,
       num_options_1 := none, num_options_2 := none } :
        SOMEIPSDEntry Unit).option_index_1 ≠ none := by
  exact ⟨rfl, by simp⟩

section FindAssignTheorems

variable {α : Type} [DecidableEq α]

theorem bmhSkip_pos (needle : List α) (x : α) (hn : needle.length ≠ 0) :
    1 ≤ bmhSkip needle x := by
  unfold bmhSkip
  have aux : ∀ (l : List Nat) (acc : Nat), 1 ≤ acc →
      (∀ i ∈ l, i + 1 < needle.length) →
      1 ≤ l.foldl
        (fun acc i =>
          if needle.get? i = some x then needle.length - i - 1 else acc) acc := by
    intro l
    induction l with
    | nil => intro acc h _; exact h
    | cons a l ih =>
      intro acc hacc hmem
      refine ih _ ?_ (fun i hi => hmem i (List.mem_cons_of_mem a hi))
      show 1 ≤ if needle.get? a = some x then needle.length - a - 1 else acc
      by_cases hc : needle.get? a = some x
      · rw [if_pos hc]
        have := hmem a (List.mem_cons_self a l)
        omega
      · rw [if_neg hc]; exact hacc
  refine aux _ _ (by omega) ?_
  intro i hi
  rw [List.mem_range] at hi
  omega

theorem bmhLoop_fuel_irrel (haystack needle : List α)
    (hn : needle.length ≠ 0) :
    ∀ fuel fuel' i, haystack.length ≤ i + fuel →
      haystack.length ≤ i + fuel' →
      bmhLoop haystack needle fuel i = bmhLoop haystack needle fuel' i := by
  intro fuel
  induction fuel with
  | zero =>
    intro fuel' i h1 h2
    cases fuel' with
    | zero => rfl
    | succ f =>
      simp only [bmhLoop]
      rw [dif_neg (by omega)]
  | succ f ih =>
    intro fuel' i h1 h2
    cases fuel' with
    | zero =>
      simp only [bmhLoop]
      rw [dif_neg (by omega)]
    | succ f' =>
      simp only [bmhLoop]
      by_cases hlt : i < haystack.length
      · rw [dif_pos hlt, dif_pos hlt]
        cases mismatchIdx haystack needle i with
        | none => rfl
        | some m =>
          simp only []
          have hskip := bmhSkip_pos needle (haystack.get ⟨i, hlt⟩) hn
          exact ih f' _ (by omega) (by omega)
      · rw [dif_neg hlt, dif_neg hlt]

theorem mismatchIdx_eq_none_iff (haystack needle : List α) (i : Nat) :
    mismatchIdx haystack needle i = none ↔
      ∀ j < needle.length,
        haystack.get? (i - j) = needle.get? (needle.length - 1 - j) := by
  simp [mismatchIdx, List.find?_eq_none, List.mem_range]

theorem bmhLoop_sound (haystack needle : List α) :
    ∀ fuel i k, needle.length - 1 ≤ i →
      bmhLoop haystack needle fuel i = some k →
      matchesAt haystack needle k := by
  intro fuel
  induction fuel with
  | zero => intro i k _ h; simp [bmhLoop] at h
  | succ f ih =>
    intro i k hni h
    simp only [bmhLoop] at h
    by_cases hlt : i < haystack.length
    · rw [dif_pos hlt] at h
      cases hm : mismatchIdx haystack needle i with
      | none =>
        rw [hm] at h
        simp only [Option.some.injEq] at h
        subst h
        rw [mismatchIdx_eq_none_iff] at hm
        constructor
        · omega
        · intro j hj
          have hj' : needle.length - 1 - j < needle.length := by omega
          have := hm (needle.length - 1 - j) hj'
          have e1 : i - (needle.length - 1 - j) = i + 1 - needle.length + j := by
            omega
          have e2 : needle.length - 1 - (needle.length - 1 - j) = j := by omega
          rw [e1, e2] at this
          exact this
      | some m =>
        rw [hm] at h
        exact ih _ k (by omega) h
    · rw [dif_neg hlt] at h
      simp at h

theorem _find_sound (haystack needle : List α) (k : Nat)
    (h : _find haystack needle = some k) : matchesAt haystack needle k := by
  unfold _find at h
  by_cases hn : needle.length = 0
  · rw [if_pos hn] at h
    simp only [Option.some.injEq] at h
    subst h
    exact ⟨by omega, by intro j hj; omega⟩
  · rw [if_neg hn] at h
    exact bmhLoop_sound haystack needle _ _ _ (by omega) h

theorem matchesAt_append_left (haystack needle ext : List α) (k : Nat)
    (h : matchesAt haystack needle k) :
    matchesAt (haystack ++ ext) needle k := by
  obtain ⟨hb, hg⟩ := h
  refine ⟨by simp; omega, ?_⟩
  intro j hj
  rw [List.get?_append (by omega)]
  exact hg j hj

theorem matchesAt_append_self (haystack needle : List α) :
    matchesAt (haystack ++ needle) needle haystack.length := by
  refine ⟨by simp, ?_⟩
  intro j hj
  rw [List.get?_append_right (by omega)]
  congr 1
  omega

theorem matchesAt_slice (haystack needle : List α) (k : Nat)
    (h : matchesAt haystack needle k) :
    ((haystack.drop k).take needle.length) = needle := by
  obtain ⟨hb, hg⟩ := h
  apply List.ext_get?
  intro j
  by_cases hj : j < needle.length
  · rw [List.get?_take hj, List.get?_drop]
    exact hg j hj
  · have h1 : ((haystack.drop k).take needle.length).get? j = none := by
      apply List.get?_eq_none.mpr
      simp
      omega
    have h2 : needle.get? j = none := by
      apply List.get?_eq_none.mpr
      omega
    rw [h1, h2]

theorem entrySlicesOk_append (orig new : SOMEIPSDEntry α)
    (opts ext : List α) (h : entrySlicesOk orig new opts) :
    entrySlicesOk orig new (opts ++ ext) := by
  obtain ⟨k1, k2, h1, h2, h3, h4, h5, h6⟩ := h
  exact ⟨k1, k2, h1, h2, matchesAt_append_left _ _ _ _ h3, h4, h5,
    matchesAt_append_left _ _ _ _ h6⟩

theorem _assign_option_spec (run opts : List α) :
    (∃ ext, (_assign_option run opts).2.2 = opts ++ ext) ∧
    (_assign_option run opts).2.1 = run.length ∧
    matchesAt (_assign_option run opts).2.2 run
      (_assign_option run opts).1 := by
  unfold _assign_option
  by_cases he : run.isEmpty
  · rw [if_pos he]
    have : run = [] := List.isEmpty_iff.mp he
    subst this
    refine ⟨⟨[], by simp⟩, rfl, by simp, ?_⟩
    intro j hj
    exact absurd hj (by simp)
  · rw [if_neg he]
    cases hf : _find opts run with
    | some oi =>
      exact ⟨⟨[], by simp⟩, rfl, _find_sound _ _ _ hf⟩
    | none =>
      exact ⟨⟨run, rfl⟩, rfl, matchesAt_append_self _ _⟩

theorem assign_option_index_spec (e : SOMEIPSDEntry α) (opts : List α)
    (he : e.options_resolved = true) :
    (∃ ext, (assign_option_index e opts).2 = opts ++ ext) ∧
    entrySlicesOk e (assign_option_index e opts).1
      (assign_option_index e opts).2 := by
  unfold assign_option_index
  rw [if_neg (by simp [he])]
  obtain ⟨⟨ext1, hx1⟩, hn1, hm1⟩ := _assign_option_spec e.options_1 opts
  obtain ⟨⟨ext2, hx2⟩, hn2, hm2⟩ :=
    _assign_option_spec e.options_2 (_assign_option e.options_1 opts).2.2
  constructor
  · exact ⟨ext1 ++ ext2, by rw [hx2, hx1, List.append_assoc]⟩
  · refine ⟨_, _, rfl, ?_, ?_, rfl, ?_, hm2⟩
    · show some (_assign_option e.options_1 opts).2.1 = _
      rw [hn1]
    · rw [hx2]
      exact matchesAt_append_left _ _ _ _ hm1
    · show some (_assign_option e.options_2
        (_assign_option e.options_1 opts).2.2).2.1 = _
      rw [hn2]

theorem assign_entries_spec (es : List (SOMEIPSDEntry α)) (opts : List α)
    (hres : ∀ e ∈ es, e.options_resolved = true) :
    (∃ ext, (assign_entries es opts).2 = opts ++ ext) ∧
    ∀ i e e', es.get? i = some e →
      (assign_entries es opts).1.get? i = some e' →
      entrySlicesOk e e' (assign_entries es opts).2 := by
  induction es generalizing opts with
  | nil =>
    refine ⟨⟨[], by simp [assign_entries]⟩, ?_⟩
    intro i e e' h _
    simp at h
  | cons a rest ih =>
    have ha : a.options_resolved = true := hres a (List.mem_cons_self a rest)
    obtain ⟨⟨ext1, hx1⟩, hsl⟩ := assign_option_index_spec a opts ha
    obtain ⟨⟨ext2, hx2⟩, hrest⟩ :=
      ih (assign_option_index a opts).2
        (fun e heh => hres e (List.mem_cons_of_mem a heh))
    constructor
    · refine ⟨ext1 ++ ext2, ?_⟩
      show (assign_entries rest (assign_option_index a opts).2).2 = _
      rw [hx2, hx1, List.append_assoc]
    · intro i e e' hh hh'
      cases i with
      | zero =>
        simp only [List.get?, Option.some.injEq, assign_entries] at hh hh'
        subst hh
        subst hh'
        show entrySlicesOk a (assign_option_index a opts).1
          (assign_entries rest (assign_option_index a opts).2).2
        rw [hx2]
        exact entrySlicesOk_append _ _ _ _ hsl
      | succ n =>
        simp only [List.get?, assign_entries] at hh hh'
        exact hrest n e e' hh hh'

end FindAssignTheorems

/-- C3 (as stated, refuted): the options list built by
assign_option_indexes need not be the shortest list containing every
option runs of every entry as contiguous slices: on C3hdr the code produces a
3-element list although a 2-element list suffices. -/
theorem C3_counterexample :
    ¬ (∀ L : List Nat,
        (∀ e ∈ C3hdr.entries,
          (∃ k, matchesAt L e.options_1 k) ∧
          (∃ k, matchesAt L e.options_2 k)) →
        (SOMEIPSDHeader.assign_option_indexes C3hdr).options.length ≤
          L.length) := by
  intro hcl
  have hlen :
      (SOMEIPSDHeader.assign_option_indexes C3hdr).options.length = 3 := by
    decide
  have h2 := hcl [2, 1] ?_
  · rw [hlen] at h2
    simp at h2
  · intro e he
    simp only [C3hdr, List.mem_cons, List.not_mem_nil, or_false] at he
    rcases he with rfl | rfl
    · exact ⟨⟨1, by decide⟩, ⟨0, by decide⟩⟩
    · exact ⟨⟨0, by decide⟩, ⟨0, by decide⟩⟩

/-- C3 (amended): for a header whose entries all have resolved options,
assign_option_indexes produces an options list in which the two option
runs of every entry appear as contiguous slices, referenced by the assigned
option_index and num_options fields; the list reuses an existing
matching slice when the Boyer-Moore-Horspool search finds one and
appends otherwise, but it is not necessarily the shortest such list. -/
theorem C3_assign_option_indexes_slices {α : Type} [DecidableEq α]
    (hdr : SOMEIPSDHeader α)
    (hres : ∀ e ∈ hdr.entries, e.options_resolved = true) :
    ∀ i e e', hdr.entries.get? i = some e →
      (hdr.assign_option_indexes).entries.get? i = some e' →
      entrySlicesOk e e' (hdr.assign_option_indexes).options := by
  intro i e e' h1 h2
  exact (assign_entries_spec hdr.entries hdr.options hres).2 i e e' h1 h2

/-- Witness for the amended C3 on the first entry of C3hdr. -/
theorem C3_assign_option_indexes_slices_witness :
    entrySlicesOk (α := Nat)
      { sd_type := .OfferService, service_id := 1, instance_id := 1,
        major_version := 1, ttl := 3, minver_or_counter := 0,
        options_1 := [1] }
      { sd_type := .OfferService, service_id := 1, instance_id := 1,
        major_version := 1, ttl := 3, minver_or_counter := 0,
        option_index_1 := some 0, option_index_2 := some 0,
        num_options_1 := some 1, num_options_2 := some 0 }
      (SOMEIPSDHeader.assign_option_indexes C3hdr).options :=
  C3_assign_option_indexes_slices C3hdr (by decide) 0 _ _ rfl rfl

/-- C4 (as stated, refuted): two entries with element-wise identical
non-empty resolved option runs do not necessarily receive equal
option_index values: on C4hdr the identical second runs get indexes 1
and 0. -/
theorem C4_counterexample :
    C4hdr.entries.get? 0 = C4hdr.entries.get? 1 ∧
    (∀ e ∈ C4hdr.entries,
      e.options_2 ≠ [] ∧ e.options_resolved = true) ∧
    (SOMEIPSDHeader.assign_option_indexes C4hdr).entries.map
      (fun e => e.option_index_2) = [some 1, some 0] := by
  exact ⟨rfl, by decide, by decide⟩

/-- C4 (amended): after assign_option_indexes, two entries whose
resolved option runs are element-wise identical reference slices of the
resulting options list with equal num_options and equal content (each
equal to the original run); the option_index values themselves may
differ. -/
theorem C4_identical_runs_share_slice_content {α : Type} [DecidableEq α]
    (hdr : SOMEIPSDHeader α)
    (hres : ∀ e ∈ hdr.entries, e.options_resolved = true)
    (i j : Nat) (ei ej ei' ej' : SOMEIPSDEntry α)
    (hi : hdr.entries.get? i = some ei)
    (hj : hdr.entries.get? j = some ej)
    (hi' : (hdr.assign_option_indexes).entries.get? i = some ei')
    (hj' : (hdr.assign_option_indexes).entries.get? j = some ej')
    (hrun1 : ei.options_1 = ej.options_1)
    (hrun2 : ei.options_2 = ej.options_2) :
    (ei'.num_options_1 = some ei.options_1.length ∧
     ej'.num_options_1 = some ei.options_1.length ∧
     ∃ k1 k2, ei'.option_index_1 = some k1 ∧
       ej'.option_index_1 = some k2 ∧
       ((hdr.assign_option_indexes).options.drop k1).take
           ei.options_1.length = ei.options_1 ∧
       ((hdr.assign_option_indexes).options.drop k2).take
           ei.options_1.length = ei.options_1) ∧
    (ei'.num_options_2 = some ei.options_2.length ∧
     ej'.num_options_2 = some ei.options_2.length ∧
     ∃ k1 k2, ei'.option_index_2 = some k1 ∧
       ej'.option_index_2 = some k2 ∧
       ((hdr.assign_option_indexes).options.drop k1).take
           ei.options_2.length = ei.options_2 ∧
       ((hdr.assign_option_indexes).options.drop k2).take
           ei.options_2.length = ei.options_2) := by
  obtain ⟨a1, a2, hia, hib, hic, hid, hie, hif⟩ :=
    (assign_entries_spec hdr.entries hdr.options hres).2 i ei ei' hi hi'
  obtain ⟨b1, b2, hja, hjb, hjc, hjd, hje, hjf⟩ :=
    (assign_entries_spec hdr.entries hdr.options hres).2 j ej ej' hj hj'
  constructor
  · refine ⟨hib, by rw [hjb, hrun1], a1, b1, hia, hja, ?_, ?_⟩
    · exact matchesAt_slice _ _ _ hic
    · rw [hrun1]
      exact matchesAt_slice _ _ _ hjc
  · refine ⟨hie, by rw [hje, hrun2], a2, b2, hid, hjd, ?_, ?_⟩
    · exact matchesAt_slice _ _ _ hif
    · rw [hrun2]
      exact matchesAt_slice _ _ _ hjf

/-- Witness for the amended C4 on the two entries of C4hdr. -/
theorem C4_identical_runs_share_slice_content_witness :
    (C4assignedA.num_options_1 = some 1 ∧
     C4assignedB.num_options_1 = some 1 ∧
     ∃ k1 k2, C4assignedA.option_index_1 = some k1 ∧
       C4assignedB.option_index_1 = some k2 ∧
       (((SOMEIPSDHeader.assign_option_indexes C4hdr).options.drop k1).take
           1 = [1]) ∧
       (((SOMEIPSDHeader.assign_option_indexes C4hdr).options.drop k2).take
           1 = [1])) ∧
    (C4assignedA.num_options_2 = some 2 ∧
     C4assignedB.num_options_2 = some 2 ∧
     ∃ k1 k2, C4assignedA.option_index_2 = some k1 ∧
       C4assignedB.option_index_2 = some k2 ∧
       (((SOMEIPSDHeader.assign_option_indexes C4hdr).options.drop k1).take
           2 = [1, 1]) ∧
       (((SOMEIPSDHeader.assign_option_indexes C4hdr).options.drop k2).take
           2 = [1, 1])) := by
  exact C4_identical_runs_share_slice_content C4hdr (by decide) 0 1
    _ _ C4assignedA C4assignedB rfl rfl rfl rfl rfl rfl

section SessionTheorems

variable {K : Type} [DecidableEq K]

/-- C5: check_received returns true iff a record for the key exists and
either the stored flag was false and the new one true, or both flags are
true and the stored session id is positive and at least the new one; an
unknown key yields false; and the stored entry is always replaced by the
new (flag, session id) pair. -/
theorem C5_check_received_spec (incoming : K × Bool → Option (Bool × Nat))
    (sender : K) (multicast flag : Bool) (session_id : Nat) :
    ((check_received incoming sender multicast flag session_id).1 = true ↔
      ∃ old_flag old_sid,
        incoming (sender, multicast) = some (old_flag, old_sid) ∧
        ((old_flag = false ∧ flag = true) ∨
         (old_flag = true ∧ flag = true ∧ 0 < old_sid ∧
           session_id ≤ old_sid))) ∧
    (incoming (sender, multicast) = none →
      (check_received incoming sender multicast flag session_id).1 = false) ∧
    (check_received incoming sender multicast flag session_id).2 =
      Function.update incoming (sender, multicast)
        (some (flag, session_id)) := by
  unfold check_received
  cases hmatch : incoming (sender, multicast) with
  | none =>
    refine ⟨?_, fun _ => rfl, rfl⟩
    simp [hmatch]
  | some p =>
    obtain ⟨old_flag, old_sid⟩ := p
    refine ⟨?_, fun hno => absurd hno (by simp), rfl⟩
    constructor
    · intro hb
      refine ⟨old_flag, old_sid, rfl, ?_⟩
      cases old_flag <;> cases flag <;> simp_all
    · rintro ⟨of, os, heq, hcase⟩
      injection heq with heq
      cases heq
      rcases hcase with ⟨h1, h2⟩ | ⟨h1, h2, h3, h4⟩ <;>
        subst h1 <;> subst h2 <;> simp_all

/-- Witness for C5: a known key with stored (true, 5) and an incoming
flag true with session id 3 reports a reboot. -/
theorem C5_check_received_spec_witness :
    (check_received
      (Function.update (fun _ => none) ((0 : Nat), false) (some (true, 5)))
      0 false true 3).1 = true :=
  (C5_check_received_spec _ 0 false true 3).1.mpr
    ⟨true, 5, by simp, Or.inr ⟨rfl, rfl, by omega, by omega⟩⟩

end SessionTheorems

/-- C6: on a 16-byte-or-longer buffer with a known entry type,
SOMEIPSDEntry.parse raises ParseError exactly when an option run exceeds
the option count or, for Subscribe and SubscribeAck, when the upper 12
bits of minver_or_counter are set; otherwise it returns a parsed
entry. -/
theorem C6_sd_entry_parse_validation
    (b0 b1 b2 b3 b4 b5 b6 b7 b8 b9 b10 b11 b12 b13 b14 b15 : Nat)
    (rest : List Nat) (num_options : Nat) (ty : SOMEIPSDEntryType)
    (hty : SOMEIPSDEntryType.fromVal b0 = some ty) :
    (SOMEIPSDEntry.parse (α := Unit)
        (b0 :: b1 :: b2 :: b3 :: b4 :: b5 :: b6 :: b7 :: b8 :: b9 :: b10 ::
          b11 :: b12 :: b13 :: b14 :: b15 :: rest) num_options =
        .error .parseError ↔
      (num_options < b1 + b3 / 16 ∨ num_options < b2 + b3 % 16 ∨
        ((ty = .Subscribe ∨ ty = .SubscribeAck) ∧
          rd32 b12 b13 b14 b15 &&& 0xFFF00000 ≠ 0))) ∧
    (¬ (num_options < b1 + b3 / 16 ∨ num_options < b2 + b3 % 16 ∨
        ((ty = .Subscribe ∨ ty = .SubscribeAck) ∧
          rd32 b12 b13 b14 b15 &&& 0xFFF00000 ≠ 0)) →
      ∃ e, SOMEIPSDEntry.parse (α := Unit)
        (b0 :: b1 :: b2 :: b3 :: b4 :: b5 :: b6 :: b7 :: b8 :: b9 :: b10 ::
          b11 :: b12 :: b13 :: b14 :: b15 :: rest) num_options =
        .ok (e, rest)) := by
  simp only [SOMEIPSDEntry.parse, hty]
  by_cases h1 : num_options < b1 + b3 / 16
  · simp [h1]
  · rw [if_neg h1]
    by_cases h2 : num_options < b2 + b3 % 16
    · simp [h1, h2]
    · rw [if_neg h2]
      by_cases h3 : (ty = .Subscribe ∨ ty = .SubscribeAck) ∧
          rd32 b12 b13 b14 b15 &&& 0xFFF00000 ≠ 0
      · simp [h1, h2, h3]
      · rw [if_neg h3]
        simp [h1, h2, h3]

/-- Witness for C6: an all-zero OfferService entry with zero options
parses successfully. -/
theorem C6_sd_entry_parse_validation_witness :
    (SOMEIPSDEntry.parse (α := Unit)
        (1 :: 0 :: 0 :: 0 :: 0 :: 0 :: 0 :: 0 :: 0 :: 0 :: 0 ::
          0 :: 0 :: 0 :: 0 :: 0 :: []) 0 = .error .parseError ↔
      (0 < 0 + 0 / 16 ∨ 0 < 0 + 0 % 16 ∨
        ((SOMEIPSDEntryType.OfferService = .Subscribe ∨
          SOMEIPSDEntryType.OfferService = .SubscribeAck) ∧
          rd32 0 0 0 0 &&& 0xFFF00000 ≠ 0))) ∧
    (¬ (0 < 0 + 0 / 16 ∨ 0 < 0 + 0 % 16 ∨
        ((SOMEIPSDEntryType.OfferService = .Subscribe ∨
          SOMEIPSDEntryType.OfferService = .SubscribeAck) ∧
          rd32 0 0 0 0 &&& 0xFFF00000 ≠ 0)) →
      ∃ e, SOMEIPSDEntry.parse (α := Unit)
        (1 :: 0 :: 0 :: 0 :: 0 :: 0 :: 0 :: 0 :: 0 :: 0 :: 0 ::
          0 :: 0 :: 0 :: 0 :: 0 :: []) 0 = .ok (e, [])) :=
  C6_sd_entry_parse_validation 1 0 0 0 0 0 0 0 0 0 0 0 0 0 0 0 [] 0
    .OfferService rfl

/-- C7: a Subscribe entry with positive ttl handled by an active,
matching instance whose client_subscribed raises NakSubscription: the
refresh raises (store unchanged), handle_subscribe returns the original
store, and queues exactly the NACK entry (a SubscribeAck with ttl 0)
to the peer. -/
theorem C7_subscribe_nack {π α : Type} [DecidableEq π] [DecidableEq α]
    (isEndpoint : α → Bool)
    (store : π → List (EventgroupSubscription α α × Option Nat))
    (entry : SOMEIPSDEntry α) (addr : π) (new_timer : Nat)
    (httl : entry.ttl ≠ 0)
    (hnew : (store addr).find?
      (fun p => subEq p.1 (from_subscribe_entry isEndpoint entry)) = none) :
    TimedStore.refresh subEq store
        (from_subscribe_entry isEndpoint entry).ttl addr
        (from_subscribe_entry isEndpoint entry) (.error ()) new_timer =
      .error () ∧
    handle_subscribe isEndpoint true true store entry addr (.error ())
        new_timer =
      (true, store,
        [(to_nack_entry (from_subscribe_entry isEndpoint entry), addr)]) ∧
    (to_nack_entry (α := α)
      (from_subscribe_entry isEndpoint entry)).sd_type = .SubscribeAck ∧
    (to_nack_entry (α := α)
      (from_subscribe_entry isEndpoint entry)).ttl = 0 := by
  have hrefresh : TimedStore.refresh subEq store
      (from_subscribe_entry isEndpoint entry).ttl addr
      (from_subscribe_entry isEndpoint entry) (.error ()) new_timer =
      .error () := by
    unfold TimedStore.refresh
    rw [hnew]
  refine ⟨hrefresh, ?_, rfl, rfl⟩
  unfold handle_subscribe
  rw [if_neg (by simp), if_neg (by simp), if_neg httl, hrefresh]

/-- Witness for C7: a concrete Subscribe entry with ttl 5 against an
empty store. -/
theorem C7_subscribe_nack_witness :
    TimedStore.refresh subEq (fun _ : Nat => [])
        (from_subscribe_entry (fun _ : Nat => false)
          { sd_type := .Subscribe, service_id := 1, instance_id := 1,
            major_version := 1, ttl := 5, minver_or_counter := 5 }).ttl 9
        (from_subscribe_entry (fun _ : Nat => false)
          { sd_type := .Subscribe, service_id := 1, instance_id := 1,
            major_version := 1, ttl := 5, minver_or_counter := 5 })
        (.error ()) 0 = .error () ∧
    handle_subscribe (fun _ : Nat => false) true true (fun _ : Nat => [])
        { sd_type := .Subscribe, service_id := 1, instance_id := 1,
          major_version := 1, ttl := 5, minver_or_counter := 5 } 9
        (.error ()) 0 =
      (true, (fun _ : Nat => []),
        [(to_nack_entry (from_subscribe_entry (fun _ : Nat => false)
            { sd_type := .Subscribe, service_id := 1, instance_id := 1,
              major_version := 1, ttl := 5, minver_or_counter := 5 }), 9)]) ∧
    (to_nack_entry (α := Nat)
      (from_subscribe_entry (fun _ : Nat => false)
        { sd_type := .Subscribe, service_id := 1, instance_id := 1,
          major_version := 1, ttl := 5,
          minver_or_counter := 5 })).sd_type = .SubscribeAck ∧
    (to_nack_entry (α := Nat)
      (from_subscribe_entry (fun _ : Nat => false)
        { sd_type := .Subscribe, service_id := 1, instance_id := 1,
          major_version := 1, ttl := 5,
          minver_or_counter := 5 })).ttl = 0 :=
  C7_subscribe_nack (fun _ => false) (fun _ => [])
    { sd_type := .Subscribe, service_id := 1, instance_id := 1,
      major_version := 1, ttl := 5, minver_or_counter := 5 } 9 0
    (by decide) rfl

theorem filter_eraseP_nil {γ : Type} (p : γ → Bool) (l : List γ)
    (h : (l.filter p).length = 1) : (l.eraseP p).filter p = [] := by
  induction l with
  | nil => simp at h
  | cons x xs ih =>
    by_cases hx : p x = true
    · rw [List.eraseP_cons_of_pos hx]
      rw [List.filter_cons_of_pos hx] at h
      simp only [List.length_cons, Nat.add_left_inj] at h
      exact List.length_eq_zero.mp (by omega)
    · have hx' : p x = false := by
        cases hp : p x
        · rfl
        · exact absurd hp hx
      rw [List.eraseP_cons_of_neg (by simp [hx'])]
      rw [List.filter_cons_of_neg (by simp [hx'])] at h
      rw [List.filter_cons_of_neg (by simp [hx'])]
      exact ih h

/-- C10: EventgroupSubscription values agreeing on service_id,
instance_id, major_version, eventgroup id, counter and endpoints compare
equal (subEq) and share the compare-field tuple the frozen dataclass
hashes, ttl and options notwithstanding; consequently, refreshing a
stored subscription under an equal key succeeds without invoking
client_subscribed, cancels exactly the old stored timeout handle, and
leaves a single store entry for that key instead of adding a second. -/
theorem C10_eventgroup_subscription_identity {ε ω π : Type}
    [DecidableEq ε] [DecidableEq ω] [DecidableEq π]
    (a b : EventgroupSubscription ε ω)
    (h1 : a.service_id = b.service_id) (h2 : a.instance_id = b.instance_id)
    (h3 : a.major_version = b.major_version) (h4 : a.id = b.id)
    (h5 : a.counter = b.counter) (h6 : a.endpoints = b.endpoints)
    (store : π → List (EventgroupSubscription ε ω × Option Nat))
    (addr : π) (oldHandle : Option Nat) (ttl : Nat)
    (cb : Except Unit Unit) (newTimer : Nat)
    (hfound : (store addr).find? (fun p => subEq p.1 b) =
      some (a, oldHandle))
    (hone : ((store addr).filter (fun p => subEq p.1 b)).length = 1) :
    subEq a b = true ∧ subKey a = subKey b ∧
    ∃ r, TimedStore.refresh subEq store ttl addr b cb newTimer = .ok r ∧
      r.called_new = false ∧ r.cancelled = oldHandle ∧
      ((r.store addr).filter (fun p => subEq p.1 b)).length = 1 := by
  have hkey : subKey a = subKey b := by
    simp [subKey, h1, h2, h3, h4, h5, h6]
  refine ⟨by simp [subEq, hkey], hkey, ?_⟩
  refine ⟨_, by unfold TimedStore.refresh; rw [hfound], rfl, rfl, ?_⟩
  simp only [Function.update_same]
  rw [List.filter_append]
  rw [filter_eraseP_nil _ _ hone]
  simp [subEq]

/-- Witness for C10: two subscriptions differing only in ttl, one stored
with timeout handle 11. -/
theorem C10_eventgroup_subscription_identity_witness :
    subEq
      ({ service_id := 1, instance_id := 1, major_version := 1, id := 5,
         counter := 0, ttl := 5, endpoints := (∅ : Finset Nat),
         options := ([] : List Nat) } : EventgroupSubscription Nat Nat)
      { service_id := 1, instance_id := 1, major_version := 1, id := 5,
        counter := 0, ttl := 7, endpoints := ∅, options := [] } = true ∧
    subKey
      ({ service_id := 1, instance_id := 1, major_version := 1, id := 5,
         counter := 0, ttl := 5, endpoints := (∅ : Finset Nat),
         options := ([] : List Nat) } : EventgroupSubscription Nat Nat) =
      subKey
      ({ service_id := 1, instance_id := 1, major_version := 1, id := 5,
         counter := 0, ttl := 7, endpoints := ∅,
         options := [] } : EventgroupSubscription Nat Nat) ∧
    ∃ r, TimedStore.refresh subEq
        (Function.update
          (fun _ : Nat =>
            ([] : List (EventgroupSubscription Nat Nat × Option Nat)))
          0 [({ service_id := 1, instance_id := 1, major_version := 1,
                id := 5, counter := 0, ttl := 5, endpoints := ∅,
                options := [] }, some 11)]) 7 0
        { service_id := 1, instance_id := 1, major_version := 1, id := 5,
          counter := 0, ttl := 7, endpoints := ∅, options := [] }
        (.error ()) 12 = .ok r ∧
      r.called_new = false ∧ r.cancelled = some 11 ∧
      ((r.store 0).filter (fun p => subEq p.1
        { service_id := 1, instance_id := 1, major_version := 1, id := 5,
          counter := 0, ttl := 7, endpoints := ∅,
          options := [] })).length = 1 :=
  C10_eventgroup_subscription_identity
    { service_id := 1, instance_id := 1, major_version := 1, id := 5,
      counter := 0, ttl := 5, endpoints := ∅, options := [] }
    { service_id := 1, instance_id := 1, major_version := 1, id := 5,
      counter := 0, ttl := 7, endpoints := ∅, options := [] }
    rfl rfl rfl rfl rfl rfl
    (Function.update
      (fun _ : Nat =>
        ([] : List (EventgroupSubscription Nat Nat × Option Nat)))
      0 [({ service_id := 1, instance_id := 1, major_version := 1,
            id := 5, counter := 0, ttl := 5, endpoints := ∅,
            options := [] }, some 11)])
    0 (some 11) 7 (.error ()) 12 (by decide) (by decide)

theorem findLoopTimes_succ (base : ℚ) (knownAt : ℚ → Bool)
    (fuel i : Nat) (t : ℚ) :
    findLoopTimes base knownAt (fuel + 1) i t =
      if knownAt (t + 2 ^ i * base) then []
      else (t + 2 ^ i * base) ::
        findLoopTimes base knownAt fuel (i + 1) (t + 2 ^ i * base) := rfl

theorem send_find_times_no_offer :
    send_find_times 3 (1/100) (fun _ => false) =
      [0, 1/100, 3/100, 7/100] := by
  unfold send_find_times
  rw [if_neg (by simp)]
  rw [show (3 : Nat) = 2 + 1 from rfl, findLoopTimes_succ,
    if_neg (by simp)]
  rw [show (2 : Nat) = 1 + 1 from rfl, findLoopTimes_succ,
    if_neg (by simp)]
  rw [show (1 : Nat) = 0 + 1 from rfl, findLoopTimes_succ,
    if_neg (by simp)]
  norm_num [findLoopTimes]

/-- C8 (as stated, refuted): with REPETITIONS_MAX = 3 and base delay
0.01 and the service never known, the cumulative send times are 0, 0.01,
0.03, 0.07 and not the claimed 0, 0.01, 0.02, 0.04. -/
theorem C8_counterexample :
    send_find_times 3 (1/100) (fun _ => false) =
      [0, 1/100, 3/100, 7/100] ∧
    send_find_times 3 (1/100) (fun _ => false) ≠
      [0, 1/100, 2/100, 4/100] := by
  refine ⟨send_find_times_no_offer, ?_⟩
  rw [send_find_times_no_offer]
  intro hcl
  simp at hcl
  norm_num at hcl

/-- C8 (amended): the find loop sends at cumulative times 0, 0.01, 0.03
and 0.07; an offer arriving at a time strictly between 0.02 and 0.03
makes the rebuilt entry list empty from the 0.03 iteration on, so the
0.03 and 0.07 sends are suppressed and only the sends at 0 and 0.01
happen. -/
theorem C8_find_send_schedule (a : ℚ) (h1 : 2/100 < a) (h2 : a < 3/100) :
    send_find_times 3 (1/100) (fun _ => false) =
      [0, 1/100, 3/100, 7/100] ∧
    send_find_times 3 (1/100) (fun t => decide (a ≤ t)) = [0, 1/100] := by
  constructor
  · exact send_find_times_no_offer
  · have e1 : (0 : ℚ) + 2 ^ 0 * (1/100) = 1/100 := by norm_num
    have e2 : (1 : ℚ)/100 + 2 ^ 1 * (1/100) = 3/100 := by norm_num
    have hA : ¬ (decide (a ≤ (0 : ℚ)) = true) := by
      simp only [decide_eq_true_eq]
      intro hc
      linarith
    have hB : ¬ (decide (a ≤ (1 : ℚ)/100) = true) := by
      simp only [decide_eq_true_eq]
      intro hc
      linarith
    have hC : decide (a ≤ (3 : ℚ)/100) = true := by
      simp only [decide_eq_true_eq]
      linarith
    unfold send_find_times
    rw [if_neg hA]
    rw [show (3 : Nat) = 2 + 1 from rfl, findLoopTimes_succ, e1, if_neg hB]
    rw [show (2 : Nat) = 1 + 1 from rfl, findLoopTimes_succ, e2, if_pos hC]

/-- Witness for the amended C8 at offer arrival time 0.025. -/
theorem C8_find_send_schedule_witness :
    send_find_times 3 (1/100) (fun _ => false) =
      [0, 1/100, 3/100, 7/100] ∧
    send_find_times 3 (1/100) (fun t => decide ((1/40 : ℚ) ≤ t)) =
      [0, 1/100] :=
  C8_find_send_schedule (1/40) (by norm_num) (by norm_num)

theorem sd_dispatch_sync_events {α : Type}
    (entries : List (SOMEIPSDEntry α)) (m : Bool) :
    ∀ ev ∈ (sd_dispatch entries m).1,
      isOfferDispatch ev = false ∧ isRebootEvent ev = false := by
  induction entries with
  | nil => intro ev h; simp [sd_dispatch] at h
  | cons e rest ih =>
    intro ev h
    cases he : e.sd_type
    · simp only [sd_dispatch, he, List.mem_cons] at h
      rcases h with rfl | h
      · exact ⟨rfl, rfl⟩
      · exact ih ev h
    · simp only [sd_dispatch, he] at h
      exact ih ev h
    · simp only [sd_dispatch, he] at h
      by_cases hm : m
      · rw [if_pos hm] at h
        exact ih ev h
      · rw [if_neg hm] at h
        rcases List.mem_cons.mp h with rfl | h
        · exact ⟨rfl, rfl⟩
        · exact ih ev h
    · simp only [sd_dispatch, he, List.mem_cons] at h
      rcases h with rfl | h
      · exact ⟨rfl, rfl⟩
      · exact ih ev h

theorem sd_dispatch_deferred_events {α : Type}
    (entries : List (SOMEIPSDEntry α)) (m : Bool) :
    ∀ ev ∈ (sd_dispatch entries m).2,
      isOfferDispatch ev = true ∧ isRebootEvent ev = false := by
  induction entries with
  | nil => intro ev h; simp [sd_dispatch] at h
  | cons e rest ih =>
    intro ev h
    cases he : e.sd_type
    · simp only [sd_dispatch, he] at h
      exact ih ev h
    · simp only [sd_dispatch, he, List.mem_cons] at h
      rcases h with rfl | h
      · exact ⟨rfl, rfl⟩
      · exact ih ev h
    · simp only [sd_dispatch, he] at h
      by_cases hm : m
      · rw [if_pos hm] at h
        exact ih ev h
      · rw [if_neg hm] at h
        exact ih ev h
    · simp only [sd_dispatch, he] at h
      exact ih ev h

/-- C9 (amended): when a reboot is detected, every deferred handle_offer
dispatch of the datagram runs strictly after all three reboot_detected
notifications; the synchronously invoked handle_findservice and
handle_subscribe calls are not covered (see the counterexample). -/
theorem C9_offer_after_reboot {α : Type}
    (entries : List (SOMEIPSDEntry α)) (flag_unicast multicast : Bool)
    (i j : Nat) (ev ev' : SDEvent α)
    (hi : (message_received_events true flag_unicast entries
      multicast).get? i = some ev)
    (hj : (message_received_events true flag_unicast entries
      multicast).get? j = some ev')
    (hoff : isOfferDispatch ev = true) (hreb : isRebootEvent ev' = true) :
    j < i := by
  classical
  set s := (if flag_unicast then sd_dispatch entries multicast
    else ([], [])).1 with hs
  set d := (if flag_unicast then sd_dispatch entries multicast
    else ([], [])).2 with hd
  have hsync : ∀ ev ∈ s, isOfferDispatch ev = false ∧
      isRebootEvent ev = false := by
    rw [hs]
    by_cases hu : flag_unicast
    · rw [if_pos hu]
      exact sd_dispatch_sync_events entries multicast
    · rw [if_neg hu]
      intro ev h
      simp at h
  have hdef : ∀ ev ∈ d, isOfferDispatch ev = true ∧
      isRebootEvent ev = false := by
    rw [hd]
    by_cases hu : flag_unicast
    · rw [if_pos hu]
      exact sd_dispatch_deferred_events entries multicast
    · rw [if_neg hu]
      intro ev h
      simp at h
  have htr : message_received_events true flag_unicast entries multicast =
      s ++ ([.reboot_subscriber, .reboot_discovery, .reboot_announcer] ++
        d) := by
    unfold message_received_events
    rw [if_pos rfl]
  rw [htr] at hi hj
  -- the offer event sits strictly after the reboot block
  have hilarge : s.length + 3 ≤ i := by
    by_contra hcon
    push_neg at hcon
    by_cases his : i < s.length
    · rw [List.get?_append his] at hi
      have := (hsync ev (List.get?_mem hi)).1
      rw [hoff] at this
      cases this
    · push_neg at his
      rw [List.get?_append_right his] at hi
      have hlt : i - s.length < 3 := by omega
      have h3 : i - s.length = 0 ∨ i - s.length = 1 ∨ i - s.length = 2 := by
        omega
      rcases h3 with h3 | h3 | h3 <;> rw [h3] at hi <;>
        simp only [List.cons_append, List.get?] at hi <;>
        injection hi with hi <;> rw [← hi] at hoff <;> cases hoff
  -- the reboot event sits inside the reboot block
  have hjblock : s.length ≤ j ∧ j < s.length + 3 := by
    constructor
    · by_contra hcon
      push_neg at hcon
      rw [List.get?_append hcon] at hj
      have := (hsync ev' (List.get?_mem hj)).2
      rw [hreb] at this
      cases this
    · by_contra hcon
      push_neg at hcon
      have hjs : s.length ≤ j := by omega
      rw [List.get?_append_right hjs] at hj
      have h3 : 3 ≤ j - s.length := by omega
      have : ([SDEvent.reboot_subscriber, SDEvent.reboot_discovery,
          SDEvent.reboot_announcer] ++ d).get? (j - s.length) =
          d.get? (j - s.length - 3) := by
        rw [List.get?_append_right (by simp; omega)]
        simp
      rw [this] at hj
      have := (hdef ev' (List.get?_mem hj)).2
      rw [hreb] at this
      cases this
  omega

/-- Witness for the amended C9: a datagram with one OfferService entry
on a rebooting peer dispatches the offer (index 3) after the three
reboot notifications (indexes 0, 1, 2). -/
theorem C9_offer_after_reboot_witness : (0 : Nat) < 3 :=
  C9_offer_after_reboot (α := Unit)
    [{ sd_type := .OfferService, service_id := 1, instance_id := 1,
       major_version := 1, ttl := 3, minver_or_counter := 0 }] true false
    3 0 (.offer_dispatch
      { sd_type := .OfferService, service_id := 1, instance_id := 1,
        major_version := 1, ttl := 3, minver_or_counter := 0 })
    .reboot_subscriber rfl rfl rfl rfl

/-- C9 (as stated, refuted): a FindService entry of the datagram is
dispatched synchronously inside message_received, before the event loop
runs the queued reboot_detected notifications: in the induced event
order the findservice dispatch (index 0) precedes all reboot events. -/
theorem C9_counterexample :
    message_received_events (α := Unit) true true
      [{ sd_type := .FindService, service_id := 1, instance_id := 1,
         major_version := 1, ttl := 3, minver_or_counter := 0 }] false =
      [.findservice_dispatch
        { sd_type := .FindService, service_id := 1, instance_id := 1,
          major_version := 1, ttl := 3, minver_or_counter := 0 },
       .reboot_subscriber, .reboot_discovery, .reboot_announcer] ∧
    ¬ (∀ (i j : Nat) (ev ev' : SDEvent Unit),
        (message_received_events (α := Unit) true true
          [{ sd_type := .FindService, service_id := 1, instance_id := 1,
             major_version := 1, ttl := 3, minver_or_counter := 0 }]
          false).get? i = some ev →
        (message_received_events (α := Unit) true true
          [{ sd_type := .FindService, service_id := 1, instance_id := 1,
             major_version := 1, ttl := 3, minver_or_counter := 0 }]
          false).get? j = some ev' →
        isDispatchEvent ev = true → isRebootEvent ev' = true → j < i) := by
  refine ⟨rfl, ?_⟩
  intro hcl
  have := hcl 0 1 (.findservice_dispatch
      { sd_type := .FindService, service_id := 1, instance_id := 1,
        major_version := 1, ttl := 3, minver_or_counter := 0 })
    .reboot_subscriber rfl rfl rfl rfl
  omega

end PySomeip
